import Mathlib

/-!
Shallow embedding of the Connect-Four front-end UI layer:
the zustand UI state store (store.ts), the engine bridge (Interface.ts),
and the click/notification wiring of the Column, Cell and NewGameModal
components.  JS numbers that hold enum-like values are embedded as `Int`
(the cell state `P2` is `-1` in the source).
-/

namespace ConnectFour

/-- `AppState` constants from store.ts. -/
def AppState.Start : Int := 0

def AppState.Playing : Int := 1

def AppState.Finished : Int := 2

/-- `OpenModal` constants from store.ts. -/
def OpenModal.None : Int := 0

def OpenModal.NewGame : Int := 1

/-- Board width from store.ts. -/
def WIDTH : Nat := 7

/-- Board height from store.ts. -/
def HEIGHT : Nat := 6

/-- `CellState` constants from Interface.ts. -/
def CellState.Blank : Int := 0

def CellState.P1 : Int := 1

def CellState.P2 : Int := -1

/-- The UI store state: the data fields of the zustand `GameState` record in
store.ts (`message`, `controlsEnabled`, `appState`, `openModal`). -/
structure GameState where
  message : String
  controlsEnabled : Bool
  appState : Int
  openModal : Int
deriving DecidableEq, Repr

/-- The store's initial record passed to `create` in store.ts. -/
def initialState : GameState :=
  { message := "Welcome to Connect Four!"
    controlsEnabled := true
    appState := AppState.Start
    openModal := OpenModal.None }

/-- `changeMessage: newMessage => set({message: newMessage})`. -/
def changeMessage (newMessage : String) (s : GameState) : GameState :=
  { s with message := newMessage }

/-- `setControlsEnabled: enabled => set({controlsEnabled: enabled})`. -/
def setControlsEnabled (enabled : Bool) (s : GameState) : GameState :=
  { s with controlsEnabled := enabled }

/-- `changeAppState: newAppState => set({appState: newAppState})`. -/
def changeAppState (newAppState : Int) (s : GameState) : GameState :=
  { s with appState := newAppState }

/-- `changeOpenModal` from store.ts: inside one `set` update it writes
`controlsEnabled` (false when the new modal id is not `None`, true when it
is) and `openModal` together, so the merged state carries both changes. -/
def changeOpenModal (newOpenModal : Int) (s : GameState) : GameState :=
  if newOpenModal ≠ OpenModal.None then
    { s with controlsEnabled := false, openModal := newOpenModal }
  else
    { s with controlsEnabled := true, openModal := newOpenModal }

/-- A JS value as it appears in an `invoke` payload slot: a number, a string,
a function value, or `undefined` (a missing argument). -/
inductive JSValue where
  | num (n : Int)
  | str (s : String)
  | fn
  | undef
deriving DecidableEq, Repr

/-- A command sent over the engine bridge: the `invoke` command name, its
payload, and the continuation installed by `.then`/`.catch`, applied to the
store state once the command resolves. -/
structure CommandDispatch where
  cmd : String
  payload : List (String × JSValue)
  onResolve : Except String Unit → GameState → GameState

/-- `playCol` from Interface.ts:
`invoke('play_col', {col}).then(_ => {}).catch(onError)` — success does
nothing, failure hands the message string to `onError`. -/
def playCol (col : Int) (onError : String → GameState → GameState) :
    CommandDispatch :=
  { cmd := "play_col"
    payload := [("col", JSValue.num col)]
    onResolve := fun outcome s =>
      match outcome with
      | Except.ok _ => s
      | Except.error msg => onError msg s }

/-- `newGame` from Interface.ts:
`invoke('new_game', {level, startingPlayer}).then(onSuccess).catch(onError)`.
The handler slots are `Option`s because JS callers may leave an argument
`undefined`; `.then undefined` passes a fulfilled promise through unchanged,
and an absent `.catch` handler leaves the state unchanged in this layer. -/
def newGame (level startingPlayer : JSValue)
    (onError : Option (String → GameState → GameState))
    (onSuccess : Option (GameState → GameState)) : CommandDispatch :=
  { cmd := "new_game"
    payload := [("level", level), ("startingPlayer", startingPlayer)]
    onResolve := fun outcome s =>
      match outcome with
      | Except.ok _ =>
        match onSuccess with
        | some f => f s
        | none => s
      | Except.error msg =>
        match onError with
        | some f => f msg s
        | none => s }

/-- The click handler of a Column view (Column.tsx):
`onClick={() => playCol(col, onError)}` with `onError` the store's
`changeMessage`.  It takes the store state a component could read, but the
handler body consults none of it. -/
def Column.onClick (col : Int) (_s : GameState) : CommandDispatch :=
  playCol col changeMessage

/-- The `newGame` dispatch issued by the start button of NewGameModal
(src/unnamed/part_002): the modal passes three arguments
`(level, onError, success continuation)` to the four-parameter `newGame` of
Interface.ts (src/unnamed/part_000), so under JS call semantics the store's
`changeMessage` lands in the `startingPlayer` slot as a function value, the
success continuation `() => changeAppState(AppState.Playing)` (which ignores
its arguments) lands in the `onError` slot, and `onSuccess` is `undefined`. -/
def NewGameModal.startDispatch (level : Int) : CommandDispatch :=
  newGame (JSValue.num level) JSValue.fn
    (some (fun _msg s => changeAppState AppState.Playing s))
    none

/-- The synchronous part of the start-button click in NewGameModal: after
issuing the `newGame` dispatch it calls `changeOpenModal(OpenModal.None)`. -/
def NewGameModal.startClick (level : Int) (s : GameState) :
    GameState × CommandDispatch :=
  (changeOpenModal OpenModal.None s, NewGameModal.startDispatch level)

/-- The `CellUpdate` payload component (Interface.ts): fields are `Option`s
because the Cell handler guards each one with a `!= null` check before
using it. -/
structure CellUpdate where
  row : Option Int
  col : Option Int
  state : Option Int
  winning : Option Bool
deriving DecidableEq, Repr

/-- The `StateUpdate` payload component (Interface.ts). -/
structure StateUpdate where
  state : Option Int
  winner : Option Int
deriving DecidableEq, Repr

/-- The `BalanceUpdate` payload component (Interface.ts). -/
structure BalanceUpdate where
  value : Option Int
deriving DecidableEq, Repr

/-- The `Update` event payload (Interface.ts). -/
structure Update where
  Cell : CellUpdate
  State : StateUpdate
  Balance : BalanceUpdate
deriving DecidableEq, Repr

/-- The local state of one Cell view (Cell.tsx): the `state` and `winning`
`useState` pair. -/
structure CellView where
  state : Int
  winning : Bool
deriving DecidableEq, Repr

/-- The notification handler a Cell view registers (Cell.tsx): it overwrites
`state` when the payload's `state` field is non-null and `winning` when the
payload's `winning` field is non-null, each independently. -/
def Cell.onUpdate (ev : Update) (c : CellView) : CellView :=
  let c1 :=
    match ev.Cell.state with
    | some v => { c with state := v }
    | none => c
  match ev.Cell.winning with
  | some w => { c1 with winning := w }
  | none => c1

/-- The subscription topic built by `onUpdateCell` in Interface.ts:
`'updateCell-' + row + '-' + col`.  The Cell views are mounted at the grid
indices (naturals below `HEIGHT` and `WIDTH`), whose JS string rendering is
their decimal representation. -/
def updateCellTopic (row col : Nat) : String :=
  "updateCell-" ++ toString row ++ "-" ++ toString col

/-- Topic-addressed delivery of the external event system (spec §6): an
emitted notification runs the handler of a subscription exactly when the
emitted topic string equals the topic the subscription registered, so the
Cell view at `(row, col)` reacts only to its own topic. -/
def deliverToCell (topic : String) (ev : Update) (row col : Nat)
    (c : CellView) : CellView :=
  if topic = updateCellTopic row col then Cell.onUpdate ev c else c

/-- On the mounted grid, the per-cell topic strings of distinct coordinates
differ, so the topic determines the coordinate. -/
theorem updateCellTopic_inj :
    ∀ (r : Fin HEIGHT) (c : Fin WIDTH) (r' : Fin HEIGHT) (c' : Fin WIDTH),
      updateCellTopic r c = updateCellTopic r' c' →
        (r : Nat) = r' ∧ (c : Nat) = c' := by
  decide

/-- C1: overlay transitions couple controls to the overlay atomically. -/
theorem changeOpenModal_couples_controls (m : Int) (s : GameState) :
    (changeOpenModal m s).controlsEnabled = decide (m = OpenModal.None) ∧
      (changeOpenModal m s).openModal = m := by
  unfold changeOpenModal
  by_cases h : m = OpenModal.None <;> simp [h]

/-- C3: the store's initial record has the fixed defaults: message
"Welcome to Connect Four!", controls enabled, phase Start, overlay None. -/
theorem initialState_defaults :
    initialState.message = "Welcome to Connect Four!" ∧
      initialState.controlsEnabled = true ∧
      initialState.appState = AppState.Start ∧
      initialState.openModal = OpenModal.None :=
  ⟨rfl, rfl, rfl, rfl⟩

/-- C6: `changeMessage` replaces the status message unconditionally with its
argument, for every prior state and text, and is therefore idempotent:
applying it twice yields the same store state as applying it once. -/
theorem changeMessage_unconditional_idempotent (t : String) (s : GameState) :
    (changeMessage t s).message = t ∧
      changeMessage t (changeMessage t s) = changeMessage t s :=
  ⟨rfl, rfl⟩

/-- C7: every store setter is total over its declared input domain and
records the given value; in particular `changeAppState` performs no
validation of transitions — for every current state and every value `v`,
the resulting phase is `v`. -/
theorem setters_total (s : GameState) (t : String) (b : Bool) (v m : Int) :
    (changeMessage t s).message = t ∧
      (setControlsEnabled b s).controlsEnabled = b ∧
      (changeAppState v s).appState = v ∧
      (changeOpenModal m s).openModal = m := by
  refine ⟨rfl, rfl, rfl, ?_⟩
  unfold changeOpenModal
  by_cases h : m = OpenModal.None <;> simp [h]

/-- C4: per-cell notifications are addressed by exact coordinate: delivering
an event on the topic of `(r, c)` runs the handler of the view subscribed at
`(r, c)`, and leaves the view bound to any other grid coordinate
`(r', c')` unchanged. -/
theorem updateCell_exact_addressing (r c r' c' : Nat)
    (hr : r < HEIGHT) (hc : c < WIDTH) (hr' : r' < HEIGHT) (hc' : c' < WIDTH)
    (ev : Update) (cv : CellView) :
    deliverToCell (updateCellTopic r c) ev r c cv = Cell.onUpdate ev cv ∧
      ((r, c) ≠ (r', c') →
        deliverToCell (updateCellTopic r c) ev r' c' cv = cv) := by
  constructor
  · simp [deliverToCell]
  · intro hne
    have htop : updateCellTopic r c ≠ updateCellTopic r' c' := by
      intro heq
      rcases updateCellTopic_inj ⟨r, hr⟩ ⟨c, hc⟩ ⟨r', hr'⟩ ⟨c', hc'⟩ heq with
        ⟨h1, h2⟩
      exact hne (by rw [Prod.mk.injEq]; exact ⟨h1, h2⟩)
    simp [deliverToCell, htop]

/-- A concrete notification payload: occupant `P2` for the spec's
scenario, winning flag absent. -/
def sampleUpdate : Update :=
  { Cell := { row := some 3, col := some 2, state := some CellState.P2,
              winning := none }
    State := { state := none, winner := none }
    Balance := { value := none } }

/-- A concrete blank cell view. -/
def sampleCell : CellView := { state := CellState.Blank, winning := false }

/-- Witness for C4 at the spec's scenario: the notification for `(3, 2)`
leaves the view bound to `(0, 0)` unchanged and updates the view at
`(3, 2)`. -/
theorem updateCell_exact_addressing_witness :
    deliverToCell (updateCellTopic 3 2) sampleUpdate 3 2 sampleCell =
        Cell.onUpdate sampleUpdate sampleCell ∧
      deliverToCell (updateCellTopic 3 2) sampleUpdate 0 0 sampleCell =
        sampleCell :=
  ⟨(updateCell_exact_addressing 3 2 0 0 (by decide) (by decide) (by decide)
      (by decide) sampleUpdate sampleCell).1,
    (updateCell_exact_addressing 3 2 0 0 (by decide) (by decide) (by decide)
      (by decide) sampleUpdate sampleCell).2 (by decide)⟩

/-- C10: the Cell handler updates each component of the view state
independently and only when the corresponding payload field is present:
a null (`none`) field leaves its component unchanged, a non-null field
replaces it. -/
theorem cell_onUpdate_field_independence (ev : Update) (cv : CellView) :
    (ev.Cell.state = none → (Cell.onUpdate ev cv).state = cv.state) ∧
      (∀ v, ev.Cell.state = some v → (Cell.onUpdate ev cv).state = v) ∧
      (ev.Cell.winning = none → (Cell.onUpdate ev cv).winning = cv.winning) ∧
      (∀ w, ev.Cell.winning = some w → (Cell.onUpdate ev cv).winning = w) := by
  obtain ⟨⟨orow, ocol, ostate, owin⟩, st, bal⟩ := ev
  cases ostate <;> cases owin <;>
    simp [Cell.onUpdate]

/-- Witness for C10 at `sampleUpdate` (occupant present, winning null):
the occupant is replaced and the winning flag keeps its prior value. -/
theorem cell_onUpdate_field_independence_witness :
    (Cell.onUpdate sampleUpdate sampleCell).state = CellState.P2 ∧
      (Cell.onUpdate sampleUpdate sampleCell).winning = sampleCell.winning :=
  ⟨(cell_onUpdate_field_independence sampleUpdate sampleCell).2.1
      CellState.P2 rfl,
    (cell_onUpdate_field_independence sampleUpdate sampleCell).2.2.1 rfl⟩

/-- C5: when a column's `playCol` command fails with message `t`, the
resolution writes exactly `t` into the status message and leaves
`controlsEnabled`, `appState` and `openModal` of the state at resolution
time unchanged; when it succeeds, the state is unchanged entirely. -/
theorem playCol_error_surfaced_verbatim (col : Int) (s u : GameState)
    (t : String) :
    ((Column.onClick col s).onResolve (Except.error t) u).message = t ∧
      ((Column.onClick col s).onResolve (Except.error t) u).controlsEnabled =
        u.controlsEnabled ∧
      ((Column.onClick col s).onResolve (Except.error t) u).appState =
        u.appState ∧
      ((Column.onClick col s).onResolve (Except.error t) u).openModal =
        u.openModal ∧
      (Column.onClick col s).onResolve (Except.ok ()) u = u :=
  ⟨rfl, rfl, rfl, rfl, rfl⟩

/-- C9: the Column click handler reads nothing from the store state: for
every state — in particular any state with an open overlay and disabled
controls — clicking column `col` dispatches the `play_col` command for
`col`, identically across states. -/
theorem column_click_unconditional (col : Int) (s : GameState) :
    (Column.onClick col s).cmd = "play_col" ∧
      (Column.onClick col s).payload = [("col", JSValue.num col)] ∧
      ∀ s' : GameState, Column.onClick col s = Column.onClick col s' :=
  ⟨rfl, rfl, fun _ => rfl⟩

/-- C2: the argument mis-binding in NewGameModal observed at the failing
input.  The modal's `newGame` call resolving with failure "engine busy" from
the initial state leaves the message unchanged and sets the phase to
`Playing` (the success continuation sits in the `onError` slot), and a
successful resolution leaves the phase at `Start` (the `onSuccess` slot is
`undefined`) — contrary to the documented outcome handling. -/
theorem newGameModal_resolution_misbound :
    ((NewGameModal.startDispatch 5).onResolve (Except.error "engine busy")
        initialState).message = "Welcome to Connect Four!" ∧
      ((NewGameModal.startDispatch 5).onResolve (Except.error "engine busy")
        initialState).appState = AppState.Playing ∧
      ((NewGameModal.startDispatch 5).onResolve (Except.ok ())
        initialState).appState = AppState.Start :=
  ⟨rfl, rfl, rfl⟩

/-- The level slice of the UI store.  Modelled from the spec: the store
revision under src (src/unnamed/part_003) lacks the `level` field and its
setter even though LevelRange, LevelLabel and NewGameModal read
`state.level` / `state.setLevel`; spec §4.1 (`setDifficulty`) describes the
missing field and setter. -/
structure LevelState where
  level : Int
deriving DecidableEq, Repr

/-- Modelled from the spec: `setDifficulty(level)` "stores a selected
integer; bounds (e.g., 2–10) are enforced by the input control, not by the
store itself — the store accepts any value given to it" (named `setLevel`
in the components that call it). -/
def setLevel (newLevel : Int) (s : LevelState) : LevelState :=
  { s with level := newLevel }

/-- The bounds NewGameModal passes to the range input control
(`<LevelRange min={2} max={10}/>`); they live in the control, not in the
store. -/
def LevelRange.min : Int := 2

/-- See `LevelRange.min`. -/
def LevelRange.max : Int := 10

/-- C8: the store-side setter records whatever integer it is given — no
clamping to the `[LevelRange.min, LevelRange.max]` bounds of the input
control and no rejection, for every prior level. -/
theorem setLevel_records_any_integer (v : Int) (s : LevelState) :
    (setLevel v s).level = v ∧
      (setLevel (LevelRange.max + 90) s).level = LevelRange.max + 90 ∧
      (setLevel (LevelRange.min - 7) s).level = LevelRange.min - 7 :=
  ⟨rfl, rfl, rfl⟩

end ConnectFour
